import Mathlib

/-!
Verification development for the Agent-AI delivery-note extraction system.

The definitions below are a shallow embedding of the Python sources:
`rimappa_utils.py`, `gdocai.py` / `glocal_ai_confronto.py` (Document-AI
result normalizer), `llm_agent.py` (LLM extraction agent), `data_utils.py`
(file extraction orchestrator), `db_data.py` (database access layer),
`document_check.py` (ERP document-verification router) and `api.py`
(HTTP API service).  External boundary systems (OCR engine, LLM provider,
ODBC store, ERP HTTP API, cloud document-AI service) are modelled as
explicit function parameters or oracle values; everything this repository
itself computes is translated statement by statement.

Numeric values that Python holds as `float` are modelled as `Rat`; the
arithmetic exercised by the claims (division of small decimals, the
`1e-6` tolerance comparison) is exact in both representations.
-/

namespace AgentAI

attribute [local semireducible] Rat.add Rat.mul Rat.inv Rat.sub

/-- Truthiness-aware Python `or` between an optional string and a default:
`a or b` falls through to `b` when `a` is `None` or the empty string. -/
def pyOr (a : Option String) (b : String) : String :=
  match a with
  | some s => if s = "" then b else s
  | none => b

/-- Python `a or b` where both operands are optional strings; an empty
string on the left is falsy and falls through to the right operand. -/
def pyOrOpt (a b : Option String) : Option String :=
  match a with
  | some s => if s = "" then b else some s
  | none => b

/-- Python `a or b` for list-valued attributes: `None` and the empty list
are both falsy and fall through to the default. -/
def pyOrList {α : Type} (a : Option (List α)) (b : List α) : List α :=
  match a with
  | some l => if l.isEmpty then b else l
  | none => b

/-- Python `str.strip()`: remove leading and trailing whitespace
(structural model of the library routine, reducible by the kernel). -/
def pyStrip (s : String) : String :=
  ⟨((s.data.dropWhile Char.isWhitespace).reverse.dropWhile Char.isWhitespace).reverse⟩

/-- Python `str.lower()` on the ASCII range used by the sources. -/
def pyLower (s : String) : String :=
  ⟨s.data.map Char.toLower⟩

/-- Python `str.replace(pat, rep)` for a one-character pattern (the only
shape the sources use): every occurrence of the character is replaced by
`rep`. -/
def pyReplaceChar (pat : Char) (rep : List Char) : List Char → List Char
  | [] => []
  | c :: cs =>
      if c = pat then rep ++ pyReplaceChar pat rep cs
      else c :: pyReplaceChar pat rep cs

/-- Python string slice `s[a:b]` for non-negative bounds: drop `a`
characters then take `b - a`, clamping at the end of the string. -/
def pySlice (s : String) (a b : Nat) : String :=
  ⟨(s.data.drop a).take (b - a)⟩

/-- Value of a list of decimal digit characters. -/
def digitsToNat (l : List Char) : Nat :=
  l.foldl (fun n c => n * 10 + (c.toNat - 48)) 0

/-- Parser for an unsigned Python float literal of the plain decimal form
`digits [. digits]` (at least one digit overall).  This is the fragment of
the `float()` grammar exercised by the cleaned numeric strings produced by
`_parse_number`; exponent and infinity forms never arise there. -/
def parseUnsignedFloat? (l : List Char) : Option Rat :=
  let ip := l.takeWhile Char.isDigit
  match l.dropWhile Char.isDigit with
  | [] => if ip.isEmpty then none else some ((digitsToNat ip : Rat))
  | '.' :: fr =>
      if fr.all Char.isDigit && !(ip.isEmpty && fr.isEmpty) then
        some ((digitsToNat ip : Rat) + (digitsToNat fr : Rat) / (10 : Rat) ^ fr.length)
      else none
  | _ => none

/-- Model of Python `float(s)` on the decimal fragment: strip surrounding
whitespace, allow one optional sign, then a plain decimal literal.
Returns `none` where `float()` raises `ValueError`. -/
def pyFloat? (s : String) : Option Rat :=
  match (pyStrip s).data with
  | '-' :: r => (parseUnsignedFloat? r).map Neg.neg
  | '+' :: r => parseUnsignedFloat? r
  | r => parseUnsignedFloat? r

/-- Embedding of `rimappa_utils._parse_number` (identical copy in
`glocal_ai_confronto.py`): `None` and the empty string are falsy and give
`None`; otherwise every period is deleted, every comma is replaced by a
period, and the result is converted with `float()`, any conversion error
yielding `None`. -/
def _parse_number (value_str : Option String) : Option Rat :=
  match value_str with
  | none => none
  | some s =>
      if s = "" then none
      else pyFloat? ⟨pyReplaceChar ',' ['.'] (pyReplaceChar '.' [] s.data)⟩

/-!
Document model for the Document-AI Result Normalizer.  The Python helpers
in `rimappa_utils.py` read each datum through an attribute-or-key accessor
that falls back between a protobuf-style name (`type_`, `mention_text`,
`header_rows`, ...) and a JSON-style name (`type`, `mentionText`,
`headerRows`, ...).  The structures below carry both shapes as optional
fields so that the fallback chains can be translated literally.
-/

/-- Text segment of a layout anchor; indices may be carried under either
the protobuf or the JSON field name. -/
structure TextSegment where
  start_index : Option Nat
  startIndex : Option Nat
  end_index : Option Nat
  endIndex : Option Nat
deriving DecidableEq, Inhabited

/-- Text anchor of a layout. -/
structure TextAnchor where
  text_segments : Option (List TextSegment)
  textSegments : Option (List TextSegment)
deriving DecidableEq, Inhabited

/-- Layout of a table cell. -/
structure CellLayout where
  text_anchor : Option TextAnchor
  textAnchor : Option TextAnchor
deriving DecidableEq, Inhabited

/-- Table cell. -/
structure Cell where
  layout : Option CellLayout
deriving DecidableEq, Inhabited

/-- Table row (header or body). -/
structure TableRow where
  cells : Option (List Cell)
deriving DecidableEq, Inhabited

/-- Table on a page. -/
structure Table where
  header_rows : Option (List TableRow)
  headerRows : Option (List TableRow)
  body_rows : Option (List TableRow)
  bodyRows : Option (List TableRow)
deriving DecidableEq, Inhabited

/-- Page of a document. -/
structure Page where
  tables : Option (List Table)
deriving DecidableEq, Inhabited

/-- Named sub-property of an entity. -/
structure EntityProp where
  type_ : Option String
  type : Option String
  mention_text : Option String
  mentionText : Option String
deriving DecidableEq, Inhabited

/-- Top-level entity of a document. -/
structure Entity where
  type_ : Option String
  type : Option String
  mention_text : Option String
  mentionText : Option String
  properties : Option (List EntityProp)
deriving DecidableEq, Inhabited

/-- Document-AI structured result (protobuf object graph or plain nested
mapping, abstracted over by the optional dual-named fields). -/
structure Document where
  text : Option String
  entities : Option (List Entity)
  pages : Option (List Page)
deriving DecidableEq, Inhabited

/-- Embedding of `_get_entities`: `_getattr(document, "entities", []) or []`. -/
def _get_entities (d : Document) : List Entity := pyOrList d.entities []

/-- Embedding of `_get_pages`. -/
def _get_pages (d : Document) : List Page := pyOrList d.pages []

/-- Embedding of `_get_document_text`: `_getattr(document, "text", "") or ""`. -/
def _get_document_text (d : Document) : String := pyOr d.text ""

/-- Embedding of `_get_entity_type`:
`(_getattr(entity, "type_", None) or _getattr(entity, "type", "")).lower()`. -/
def _get_entity_type (e : Entity) : String :=
  pyLower (pyOr e.type_ (e.type.getD ""))

/-- Embedding of `_get_entity_mention`:
the `mention_text or mentionText or ""` chain followed by `.strip()`. -/
def _get_entity_mention (e : Entity) : String :=
  pyStrip (pyOr e.mention_text (pyOr e.mentionText ""))

/-- Embedding of `_get_entity_properties`. -/
def _get_entity_properties (e : Entity) : List EntityProp :=
  pyOrList e.properties []

/-- Embedding of `_get_property_type`. -/
def _get_property_type (p : EntityProp) : String :=
  pyLower (pyOr p.type_ (p.type.getD ""))

/-- Embedding of `_get_property_mention`. -/
def _get_property_mention (p : EntityProp) : String :=
  pyStrip (pyOr p.mention_text (pyOr p.mentionText ""))

/-- Embedding of `_get_tables`. -/
def _get_tables (p : Page) : List Table := pyOrList p.tables []

/-- Embedding of `_get_header_rows`:
`_getattr(t, "header_rows", None) or _getattr(t, "headerRows", []) or []`. -/
def _get_header_rows (t : Table) : List TableRow :=
  pyOrList t.header_rows (t.headerRows.getD [])

/-- Embedding of `_get_body_rows`. -/
def _get_body_rows (t : Table) : List TableRow :=
  pyOrList t.body_rows (t.bodyRows.getD [])

/-- Embedding of `_get_cells`: `_getattr(row, "cells", []) or []`. -/
def _get_cells (r : TableRow) : List Cell := pyOrList r.cells []

/-- Embedding of `_get_layout`: `_getattr(cell, "layout", {}) or {}`; a
missing layout degrades to the empty layout object. -/
def _get_layout (c : Cell) : CellLayout := c.layout.getD ⟨none, none⟩

/-- Embedding of `_get_text_anchor`; a present anchor object is treated as
truthy, a missing one falls through to the alternate name and then to the
empty anchor. -/
def _get_text_anchor (l : CellLayout) : TextAnchor :=
  (l.text_anchor.orElse (fun _ => l.textAnchor)).getD ⟨none, none⟩

/-- Embedding of `_get_text_segments`. -/
def _get_text_segments (a : TextAnchor) : List TextSegment :=
  pyOrList a.text_segments (a.textSegments.getD [])

/-- Embedding of `_extract_text_from_segments`: concatenate the slices
`full_text[start:end]` of every segment, then strip.  Indices default to
the JSON-name field and then to `0`; in this model they are already
machine integers, so the `int()` conversion always succeeds. -/
def _extract_text_from_segments (segs : List TextSegment) (full_text : String) : String :=
  pyStrip (segs.foldl (fun acc seg =>
    let start := match seg.start_index with
      | some v => v
      | none => seg.startIndex.getD 0
    let stop := match seg.end_index with
      | some v => v
      | none => seg.endIndex.getD 0
    acc ++ pySlice full_text start stop) "")

/-- Embedding of `_cell_text`: extract the segment text when the segment
list is non-empty, otherwise the empty string. -/
def _cell_text (c : Cell) (full_text : String) : String :=
  let segs := _get_text_segments (_get_text_anchor (_get_layout c))
  if segs.isEmpty then "" else _extract_text_from_segments segs full_text

/-- Working row of the table pass of `rimappa_json`: article code, parsed
quantity and (possibly missing) unit price. -/
structure ProdRow where
  codice_articolo : String
  quantita : Rat
  prezzo : Option Rat
deriving DecidableEq, Inhabited

/-- Output line item of the normalizer (the `riga` dictionaries). -/
structure Riga where
  progressivo_riga : String
  riferimento : String
  codice_articolo : String
  descrizione : String
  quantita : Rat
  prezzo : Rat
deriving DecidableEq, Inhabited

/-- Output of `rimappa_json`. -/
structure Risultato where
  fornitore : String
  numero_documento : String
  data_documento : String
  riga : List Riga
deriving DecidableEq, Inhabited

/-- Header label `"quantita'"` (with a terminal apostrophe) looked up by
the normalizer. -/
def quantitaHeader : String := "quantita'"

/-- Python `needle in haystack` on strings: substring containment. -/
def strContains (haystack needle : String) : Bool :=
  decide (needle.data <:+: haystack.data)

/-- First pass of `rimappa_json`: scan the entities and keep the last
mention text whose lower-cased type label contains `fornitore`, `numero`
or `data` respectively (if/elif chain, later entities overwrite).
The triple is `(fornitore, numero_documento, data_documento)`. -/
def rimappaStep1 (ents : List Entity) : String × String × String :=
  ents.foldl (fun acc ent =>
    let etype := pyLower (_get_entity_type ent)
    let evalue := _get_entity_mention ent
    if strContains etype "fornitore" then (evalue, acc.2.1, acc.2.2)
    else if strContains etype "numero" then (acc.1, evalue, acc.2.2)
    else if strContains etype "data" then (acc.1, acc.2.1, evalue)
    else acc) ("", "", "")

/-- Body of the inner loop of the table pass of `rimappa_json`: given the
column indices taken from the header, turn one body row into a working
`ProdRow`, or `none` when the row is skipped (`continue`).  The unit
price is read from the `prezzo unitario` column when that exists, and
otherwise derived as `prezzo totale / quantita` when a total-price column
exists and the quantity is non-zero. -/
def prodOfBodyRow (full_text : String) (idx_cod iq : Nat)
    (idx_price_unit idx_price_tot : Option Nat) (br : TableRow) : Option ProdRow :=
  let cells := _get_cells br
  if idx_cod ≥ cells.length ∨ iq ≥ cells.length then none
  else
    let code := _cell_text (cells.getD idx_cod ⟨none⟩) full_text
    let qty? := _parse_number (some (_cell_text (cells.getD iq ⟨none⟩) full_text))
    match qty? with
    | some qty =>
        if code = "" then none
        else
          let price_unit : Option Rat := match idx_price_unit with
            | some i =>
                if i < cells.length then
                  _parse_number (some (_cell_text (cells.getD i ⟨none⟩) full_text))
                else none
            | none => none
          let price_tot : Option Rat := match idx_price_tot with
            | some i =>
                if i < cells.length then
                  _parse_number (some (_cell_text (cells.getD i ⟨none⟩) full_text))
                else none
            | none => none
          let price_unit : Option Rat := match price_unit, price_tot with
            | none, some pt => if qty ≠ 0 then some (pt / qty) else none
            | pu, _ => pu
          some ⟨code, qty, price_unit⟩
    | none => none

/-- Table pass of `rimappa_json` for one table: a table without header
rows, without a `codice articolo` header column, or without a
`quantita'` header column contributes no working rows; otherwise every
body row is processed by `prodOfBodyRow`. -/
def rowsOfTable (full_text : String) (t : Table) : List ProdRow :=
  match _get_header_rows t with
  | [] => []
  | firstHeader :: _ =>
    let header := (_get_cells firstHeader).map (fun c => pyLower (_cell_text c full_text))
    if "codice articolo" ∉ header then []
    else
      let idx_cod := header.indexOf "codice articolo"
      let idx_quant := if quantitaHeader ∈ header then some (header.indexOf quantitaHeader) else none
      let idx_price_unit :=
        if "prezzo unitario" ∈ header then some (header.indexOf "prezzo unitario") else none
      let idx_price_tot :=
        if "prezzo totale" ∈ header then some (header.indexOf "prezzo totale") else none
      match idx_quant with
      | none => []
      | some iq =>
          (_get_body_rows t).filterMap (prodOfBodyRow full_text idx_cod iq idx_price_unit idx_price_tot)

/-- The complete working list `prod_rows` of `rimappa_json`: every table
of every page. -/
def prodRowsOfDocument (full_text : String) (d : Document) : List ProdRow :=
  (_get_pages d).flatMap (fun p => (_get_tables p).flatMap (rowsOfTable full_text))

/-- The by-code fallback price map of `rimappa_json`: first observed
non-`None` price per article code (first-write-wins). -/
def buildPriceMap (rows : List ProdRow) : List (String × Rat) :=
  rows.foldl (fun m r =>
    match r.prezzo with
    | some p => if (m.lookup r.codice_articolo).isSome then m else m ++ [(r.codice_articolo, p)]
    | none => m) []

/-- Find and remove the first element satisfying `p`; the first component
is the removed element (if any), the second the list without it. -/
def popFirst {α : Type} (p : α → Bool) : List α → Option α × List α
  | [] => (none, [])
  | x :: xs =>
      if p x then (some x, xs)
      else
        let r := popFirst p xs
        (r.1, x :: r.2)

/-- Quantity-exact predicate of `match_price`: same code and quantity
within absolute tolerance `1e-6`. -/
def qtyMatches (row : ProdRow) (code : String) (qty : Rat) : Bool :=
  row.codice_articolo == code && |row.quantita - qty| < 1 / 1000000

/-- Embedding of the closure `match_price` of `rimappa_json`
(`gdocai.py` and `glocal_ai_confronto.py` carry the same code): search
the still-unconsumed working list first for a row with matching code and
quantity within `1e-6`, then for any row with matching code, removing
(consuming) the matched row; return the matched price and the new
remaining list. -/
def match_price (code : String) (qty : Option Rat)
    (prod_remaining : List ProdRow) : Option Rat × List ProdRow :=
  if code = "" then (none, prod_remaining)
  else
    let byCode :=
      match popFirst (fun r => r.codice_articolo == code) prod_remaining with
      | (some r, rest) => (r.prezzo, rest)
      | (none, _) => ((none : Option Rat), prod_remaining)
    match qty with
    | some q =>
        (match popFirst (fun r => qtyMatches r code q) prod_remaining with
        | (some r, rest) => (r.prezzo, rest)
        | (none, _) => byCode)
    | none => byCode

/-- Dictionary update with Python overwrite semantics for the `props`
mapping of `rimappa_json`. -/
def dictSet (m : List (String × String)) (k v : String) : List (String × String) :=
  (m.filter (fun kv => kv.1 ≠ k)) ++ [(k, v)]

/-- Third pass of `rimappa_json`: one folding step per entity, threading
the still-unconsumed working list and appending one output line per
entity whose type label is exactly `riga`. -/
def rimappaStep3 (ents : List Entity) (prod_rows : List ProdRow)
    (price_map : List (String × Rat)) : List Riga :=
  (ents.foldl (fun (acc : List Riga × List ProdRow) ent =>
    if pyLower (_get_entity_type ent) ≠ "riga" then acc
    else
      let props := (_get_entity_properties ent).foldl
        (fun m p => dictSet m (_get_property_type p) (_get_property_mention p)) []
      let code := (props.lookup "codice_articolo").getD ""
      let qty_str := pyOrOpt (props.lookup "quantita") (props.lookup "quantità")
      let qty : Option Rat := match qty_str with
        | some s => if s = "" then none else _parse_number (some s)
        | none => none
      let matched := match_price code qty acc.2
      let price : Rat :=
        match matched.1 with
        | some p => p
        | none =>
            match price_map.lookup code with
            | some p => p
            | none => 0
      let newRiga : Riga :=
        { progressivo_riga := toString (acc.1.length + 1)
          riferimento := (props.lookup "riferimento").getD ""
          codice_articolo := code
          descrizione := (props.lookup "descrizione").getD ""
          quantita := qty.getD 0
          prezzo := price }
      (acc.1 ++ [newRiga], matched.2)) (([] : List Riga), prod_rows)).1

/-- Embedding of `rimappa_json` (`gdocai.py` lines 128-242, duplicated as
`rimappa_document_ai` in `glocal_ai_confronto.py`): normalize a
Document-AI result into the simplified line-item schema. -/
def rimappa_json (d : Document) : Risultato :=
  let full_text := _get_document_text d
  let heads := rimappaStep1 (_get_entities d)
  let prod_rows := prodRowsOfDocument full_text d
  let price_map := buildPriceMap prod_rows
  { fornitore := heads.1
    numero_documento := heads.2.1
    data_documento := heads.2.2
    riga := rimappaStep3 (_get_entities d) prod_rows price_map }

/-!
LLM Extraction Agent (`llm_agent.py`).  The chat-completion call and the
three JSON parsers (`json.loads`, `json_repair.loads`,
`json_repair.repair_json`) are third-party boundaries, modelled as
function parameters; everything `extract_data_from_text` itself decides
(provider dispatch, error translation, the ordered fallback chain and the
final failure message) is translated from the source.
-/

/-- The fixed message of the final parse failure raised by
`extract_data_from_text` when all three parse attempts fail. -/
def jsonParseFailureMsg : String :=
  "Parsing JSON fallito anche dopo i tentativi di riparazione."

/-- Embedding of `llm_agent.extract_data_from_text`, abstracted over the
chat-completion call (`runChain`, which may fail with a provider error)
and the three parsers tried in order on the raw reply.  `α` stands for
the parsed JSON value type. -/
def extract_data_from_text {α : Type} (runChain : String → Except String String)
    (jsonLoads jrLoads jrRepair : String → Option α)
    (text : String) (provider : String) : Except String α :=
  if provider = "openai" ∨ provider = "openrouter" then
    match runChain text with
    | .error exc => .error ("Errore chiamata LLM: " ++ exc)
    | .ok response =>
        match jsonLoads response with
        | some v => .ok v
        | none =>
            match jrLoads response with
            | some v => .ok v
            | none =>
                match jrRepair response with
                | some v => .ok v
                | none => .error jsonParseFailureMsg
  else
    .error ("Provider '" ++ provider ++ "' non supportato.")

/-!
File Extraction Orchestrator (`data_utils.py`).
-/

/-- The literal phrase of the orchestrator's single failure message. -/
def processingFailurePhrase : String := "Errore durante l'elaborazione del file data"

/-- Message built by the orchestrator's `except` clause:
`f"Errore durante l'elaborazione del file data: {e}"`. -/
def procMsg (e : String) : String := processingFailurePhrase ++ ": " ++ e

/-- The `{text, data, model, provider}` bundle returned by the
orchestrator. -/
structure Bundle (α : Type) where
  text : String
  data : α
  model : String
  provider : String
deriving DecidableEq

/-- Embedding of `data_utils.extract_data_from_file`: run the OCR text
extractor on the file path, then the LLM extraction agent on the
recognized text; any failure of either stage is re-raised as a single
`RuntimeError` wrapping the original error behind the fixed phrase. -/
def extract_data_from_file {α : Type} (ocr : String → Except String String)
    (llm : String → Except String α)
    (file_path model provider : String) : Except String (Bundle α) :=
  match ocr file_path with
  | .error e => .error (procMsg e)
  | .ok text =>
      match llm text with
      | .error e => .error (procMsg e)
      | .ok d => .ok ⟨text, d, model, provider⟩

/-- Instrumented variant of the orchestrator that also reports whether
the LLM extraction agent was invoked; its first component coincides with
`extract_data_from_file` (see `extract_data_from_file_calls_fst`). -/
def extract_data_from_file_calls {α : Type} (ocr : String → Except String String)
    (llm : String → Except String α)
    (file_path model provider : String) : Except String (Bundle α) × Bool :=
  match ocr file_path with
  | .error e => (.error (procMsg e), false)
  | .ok text =>
      match llm text with
      | .error e => (.error (procMsg e), true)
      | .ok d => (.ok ⟨text, d, model, provider⟩, true)

/-- A string contains the orchestrator failure phrase as a substring. -/
def ContainsPhrase (s : String) : Prop :=
  processingFailurePhrase.data <:+: s.data

/-!
Database Access Layer (`db_data.py`).  The ODBC store is modelled as an
explicit database value: a list of `Requests` rows plus the `Status`
lookup table; the file system is an oracle mapping a path to its bytes.
`RecId` assignment is modelled by the `nextId` counter (SQL Server
identity column).
-/

/-- Model of `os.path.basename`: the final path component, after the last
path separator (forward slash, or backslash on the Windows host the
connection string targets). -/
def basename (p : String) : String :=
  ⟨(p.data.reverse.takeWhile (fun c => c ≠ '/' ∧ c ≠ '\\')).reverse⟩

/-- One row of the `Requests` table. -/
structure RequestRow where
  recId : Nat
  filename : String
  uploadDate : Nat
  blob : Option (List Nat)
  status : Int
  userPrompt : Option String
deriving DecidableEq

/-- The relational store: `Requests` rows, the `Status(Id, Description)`
lookup, and the next identity value. -/
structure DB where
  requests : List RequestRow
  statusTable : List (Int × String)
  nextId : Nat
deriving DecidableEq

namespace DbData

/-- Embedding of the legacy `db_data.data` call shape: read the file
bytes in full, insert a row with `Status = 1`, filename defaulting to the
basename of the path (`original_filename or os.path.basename(file_path)`),
and return the new `RecId` with the status description resolved via the
left join (`ISNULL(..., 'Non Trovato')`). -/
def data (fs : String → List Nat) (file_path : String)
    (original_filename : Option String) (db : DB) : DB × Nat × String :=
  let content := fs file_path
  let filename := pyOr original_filename (basename file_path)
  let recid := db.nextId
  let row : RequestRow := ⟨recid, filename, 0, some content, 1, none⟩
  let db' : DB := ⟨db.requests ++ [row], db.statusTable, db.nextId + 1⟩
  let statusDesc := (db.statusTable.lookup (1 : Int)).getD "Non Trovato"
  (db', recid, statusDesc)

/-- Embedding of `db_data.record_data` (the canonical create-request
shape): filename defaults to the empty string
(`filename = original_filename or ""`), the blob is read only when a file
path is given (`if file_path:`), the row carries `Status = 1` and the
user prompt, and the status description comes from the same left join. -/
def record_data (fs : String → List Nat) (file_path : Option String)
    (original_filename user_prompt : Option String) (db : DB) : DB × Nat × String :=
  let filename := pyOr original_filename ""
  let binary_content : Option (List Nat) :=
    match file_path with
    | some p => if p = "" then none else some (fs p)
    | none => none
  let recid := db.nextId
  let row : RequestRow := ⟨recid, filename, 0, binary_content, 1, user_prompt⟩
  let db' : DB := ⟨db.requests ++ [row], db.statusTable, db.nextId + 1⟩
  let statusDesc := (db.statusTable.lookup (1 : Int)).getD "Non Trovato"
  (db', recid, statusDesc)

/-- Embedding of `db_data.get_status_by_recid`: the status description of
the row with the given `RecId` resolved via the `Status` left join, or
`None` when no row matches. -/
def get_status_by_recid (db : DB) (recid : Nat) : Option String :=
  match db.requests.find? (fun r => r.recId == recid) with
  | some r => some ((db.statusTable.lookup r.status).getD "Non Trovato")
  | none => none

/-- Embedding of `db_data.update_status`: unconditional overwrite of the
`Status` field of the matching row. -/
def update_status (db : DB) (recid : Nat) (status : Int) : DB :=
  ⟨db.requests.map (fun r => if r.recId == recid then { r with status := status } else r),
   db.statusTable, db.nextId⟩

end DbData

/-!
HTTP API Service (`api.py`).  Each handler is modelled as a pure function
of the oracles it consults (database outcome, orchestrator outcome).  A
handler's observable behaviour is an `ApiResult`; where a claim concerns
the temporary upload-staging file, the model additionally returns whether
the temp file is still on disk when the handler (or background task)
exits.
-/

/-- Outcome of an HTTP handler: a success value or an `HTTPException`
with status code and detail. -/
inductive ApiResult (α : Type) where
  | ok (value : α)
  | httpError (code : Nat) (detail : String)
deriving DecidableEq

/-- Python exception classes distinguished by `extract_data`'s except
clauses. -/
inductive PyError where
  | fileNotFound (msg : String)
  | runtimeError (msg : String)
  | other (msg : String)
deriving DecidableEq

/-- Embedding of the `get_status` handler of `api.py`.  The body looks up
the status; a missing row raises `HTTPException(404, "RecId non
trovato")` inside the `try` block, but the handler's blanket
`except Exception as e: raise HTTPException(500, str(e))` also catches
`HTTPException` (a subclass of `Exception`), so the client receives HTTP
500 whose detail is `str` of the inner exception
(`"404: RecId non trovato"` under Starlette's `__str__`). -/
def get_status (db : DB) (recid : Nat) : ApiResult (Nat × String) :=
  match DbData.get_status_by_recid db recid with
  | none => .httpError 500 "404: RecId non trovato"
  | some s => .ok (recid, s)

/-- Python `str.lower().endswith((".pdf", ".png", ".jpg", ".jpeg"))` used
by `upload_pdf`. -/
def hasAllowedExt (filename : String) : Bool :=
  [".pdf", ".png", ".jpg", ".jpeg"].any
    (fun ext => ext.data.isSuffixOf (pyLower filename).data)

/-- Embedding of the `upload_pdf` handler: reject a filename without an
allowed extension with HTTP 400; otherwise stage the upload to a
temporary file, create a request record (`record` is the outcome of
`record_data`, which may raise), and return
`{status:"success", recid, db_status}`.  The boolean reports whether the
temporary file is still on disk when the handler exits: the `finally`
block is `pass` (deletion is delegated to a background task that is never
scheduled, the `add_task` call being commented out), so the file stays on
disk on both the success and the error path. -/
def upload_pdf (filename : String) (record : Except String (Nat × String)) :
    ApiResult (String × Nat × String) × Bool :=
  if ¬ hasAllowedExt filename then
    (.httpError 400 "Formato non supportato. Usa PDF o immagine.", false)
  else
    match record with
    | .ok (recid, status) => (.ok ("success", recid, status), true)
    | .error e => (.httpError 500 e, true)

/-- Embedding of the `extract_data` handler: stage the upload to a temp
file, run the orchestrator inline, delete the temp file, return the
bundle.  `os.unlink` stands after the orchestrator call on the success
path only; an exception propagates to the except clauses before the
unlink runs, so the boolean (temp file still on disk at exit) is true
exactly on the error paths. -/
def extract_data {α : Type} (orchestrate : Except PyError α) : ApiResult α × Bool :=
  match orchestrate with
  | .ok r => (.ok r, false)
  | .error (.fileNotFound m) => (.httpError 404 m, true)
  | .error (.runtimeError m) => (.httpError 500 m, true)
  | .error (.other m) => (.httpError 500 ("Errore durante l'elaborazione: " ++ m), true)

/-- Embedding of `_process_pipeline_background`: set status `2`; when a
temp file path was given, run the orchestrator-and-save step on it; set
status `4`; on any exception set status `98`; in all cases (`finally`)
remove the temp file if one was created.  Returns the list of status
codes written and whether a temp file is left on disk at exit. -/
def process_pipeline_background (tmp_path : Option String)
    (run : String → Except String Unit) : List Int × Bool :=
  match tmp_path with
  | some p =>
      (match run p with
      | .ok _ => ([2, 4], false)
      | .error _ => ([2, 98], false))
  | none => ([2, 4], false)

/-!
ERP Document-Verification Router (`document_check.py`).  The ERP HTTP
endpoints are boundary systems modelled as oracles returning either a
failure (network or non-2xx error) or the `data` array of the response,
each element being the optional `Code` field of a result row.
-/

/-- Line item of the verification input (`Riga` of `document_check.py`). -/
structure RigaInput where
  numero_riga : String
  codice_articolo : String
  descrizione : String
  quantita : Int
  prezzo : Rat
deriving DecidableEq

/-- Document payload of the verification input. -/
structure DocumentoData where
  cliente : String
  numero_documento : String
  data_documento : String
  rif : Option String
  righe : List RigaInput
deriving DecidableEq

/-- Output of the verification endpoint. -/
structure DocumentoOutput where
  cliente : Bool
  codice_cliente : Option String
  articoli_trovati : List String
  articoli_mancanti : List String
deriving DecidableEq

/-- Embedding of `cerca_cliente`: the first result row's `Code` of the
customer lookup, with any lookup failure or empty result downgraded to
`None`. -/
def cerca_cliente (erp : String → Except String (List (Option String)))
    (description : String) : Option String :=
  match erp description with
  | .ok (c :: _) => c
  | .ok [] => none
  | .error _ => none

/-- Whether the ERP article lookup for one code returns at least one
row (a lookup failure is logged and counts as not found). -/
def partFound (erp : String → Except String (List (Option String)))
    (code : String) : Bool :=
  match erp code with
  | .ok (_ :: _) => true
  | .ok [] => false
  | .error _ => false

/-- Embedding of `articoli_esistenti`, instrumented with the list of
codes queried against the ERP article endpoint (one HTTP call per loop
iteration, in order): the first component collects, in iteration order,
the codes whose lookup returned at least one row, failures being logged
and skipped. -/
def articoli_esistenti_calls (erp : String → Except String (List (Option String))) :
    List String → List String × List String
  | [] => ([], [])
  | code :: rest =>
      let r := articoli_esistenti_calls erp rest
      if partFound erp code then (code :: r.1, code :: r.2)
      else (r.1, code :: r.2)

/-- Embedding of `articoli_esistenti` as the source returns it (found
codes only). -/
def articoli_esistenti (erp : String → Except String (List (Option String)))
    (codici : List String) : List String :=
  (articoli_esistenti_calls erp codici).1

/-- Python `list({r.codice_articolo for r in righe})`: the line items'
article codes with duplicates removed (iteration order of a Python set is
unspecified; only membership matters downstream). -/
def dedupCodes (righe : List RigaInput) : List String :=
  (righe.map (fun r => r.codice_articolo)).dedup

/-- Embedding of the `verifica_documento` endpoint: resolve the customer
code, deduplicate the article codes, query each unique code once, and
split the codes into found and missing (`set(codici) - set(trovati)`). -/
def verifica_documento (erpCustomer erpPart : String → Except String (List (Option String)))
    (data : DocumentoData) : DocumentoOutput :=
  let codice_cliente := cerca_cliente erpCustomer data.cliente
  let codici_articolo := dedupCodes data.righe
  let articoli_trovati := articoli_esistenti erpPart codici_articolo
  let articoli_mancanti := codici_articolo.filter (fun c => ¬ c ∈ articoli_trovati)
  { cliente := codice_cliente.isSome
    codice_cliente := codice_cliente
    articoli_trovati := articoli_trovati
    articoli_mancanti := articoli_mancanti }

/-!
Instrumentation of the price-matching step for the consumption
invariant.  Working rows are tagged with distinct identities (their
position in the original `prod_rows` list); `match_price_id` mirrors
`match_price` on tagged rows and additionally reports which row it
consumed, and `match_price_run` plays an entire sequence of
`(code, qty)` queries (one per `riga`-typed entity) against the tagged
list.  `match_price_id_fst_snd` ties the instrumented function back to
the embedding of the source closure.
-/

/-- `match_price` on identity-tagged rows, returning the consumed tagged
row instead of just its price. -/
def match_price_id (code : String) (qty : Option Rat)
    (remaining : List (Nat × ProdRow)) : Option (Nat × ProdRow) × List (Nat × ProdRow) :=
  if code = "" then (none, remaining)
  else
    let byCode :=
      match popFirst (fun r => r.2.codice_articolo == code) remaining with
      | (some r, rest) => ((some r : Option (Nat × ProdRow)), rest)
      | (none, _) => (none, remaining)
    match qty with
    | some q =>
        (match popFirst (fun r => qtyMatches r.2 code q) remaining with
        | (some r, rest) => (some r, rest)
        | (none, _) => byCode)
    | none => byCode

/-- Play a sequence of `(code, qty)` queries against the tagged working
list, collecting the consumed row identity of each query. -/
def match_price_run (queries : List (String × Option Rat)) :
    List (Nat × ProdRow) → List (Option Nat) × List (Nat × ProdRow)
  | rows =>
      match queries with
      | [] => ([], rows)
      | q :: qs =>
          let step := match_price_id q.1 q.2 rows
          let rest := match_price_run qs step.2
          ((step.1.map Prod.fst) :: rest.1, rest.2)

/-! Helper lemmas about `popFirst` and the instrumented matching. -/

/-- The element removed by `popFirst` is the first one satisfying the
predicate. -/
theorem popFirst_fst {α : Type} (p : α → Bool) (l : List α) :
    (popFirst p l).1 = l.find? p := by
  induction l with
  | nil => rfl
  | cons x xs ih =>
      by_cases h : p x
      · simp [popFirst, List.find?, h]
      · simp only [popFirst, h, List.find?]
        simpa [h] using ih

/-- When `popFirst` finds nothing, the list is returned unchanged. -/
theorem popFirst_none {α : Type} (p : α → Bool) (l : List α)
    (h : (popFirst p l).1 = none) : (popFirst p l).2 = l := by
  induction l with
  | nil => rfl
  | cons x xs ih =>
      cases hx : p x
      · simp only [popFirst, hx] at h ⊢
        simp only [Bool.false_eq_true, if_false] at h ⊢
        exact congrArg (x :: ·) (ih h)
      · simp [popFirst, hx] at h

/-- Structural description of a successful `popFirst`: the list splits
around the removed element and the remainder is the list without it. -/
theorem popFirst_some {α : Type} (p : α → Bool) (l : List α) (a : α)
    (h : (popFirst p l).1 = some a) :
    p a = true ∧ ∃ l₁ l₂, l = l₁ ++ a :: l₂ ∧ (popFirst p l).2 = l₁ ++ l₂ := by
  induction l with
  | nil => simp [popFirst] at h
  | cons x xs ih =>
      cases hx : p x
      · simp only [popFirst, hx] at h ⊢
        simp only [Bool.false_eq_true, if_false] at h ⊢
        obtain ⟨hpa, l₁, l₂, hsplit, hrest⟩ := ih h
        exact ⟨hpa, x :: l₁, l₂, by simp [hsplit], by simp [hrest]⟩
      · simp only [popFirst, hx, if_true] at h ⊢
        obtain rfl : x = a := by simpa using h
        exact ⟨hx, [], xs, by simp, by simp⟩


theorem match_price_id_none (code : String) (qty : Option Rat)
    (rows : List (Nat × ProdRow))
    (h : (match_price_id code qty rows).1 = none) :
    (match_price_id code qty rows).2 = rows := by
  unfold match_price_id at h ⊢
  by_cases hc : code = ""
  · simp [hc]
  · simp only [if_neg hc] at h ⊢
    rcases hq1 : popFirst (fun r => r.2.codice_articolo == code) rows with ⟨o1, rest1⟩
    cases qty with
    | none =>
        simp only [hq1] at h ⊢
        cases o1 with
        | none => rfl
        | some r => simp at h
    | some q =>
        rcases hq2 : popFirst (fun r => qtyMatches r.2 code q) rows with ⟨o2, rest2⟩
        simp only [hq1, hq2] at h ⊢
        cases o2 with
        | some r => simp at h
        | none =>
            cases o1 with
            | none => rfl
            | some r => simp at h



theorem match_price_id_some (code : String) (qty : Option Rat)
    (rows : List (Nat × ProdRow)) (a : Nat × ProdRow)
    (h : (match_price_id code qty rows).1 = some a) :
    ∃ l₁ l₂, rows = l₁ ++ a :: l₂ ∧ (match_price_id code qty rows).2 = l₁ ++ l₂ := by
  unfold match_price_id at h ⊢
  by_cases hc : code = ""
  · simp [hc] at h
  · simp only [if_neg hc] at h ⊢
    rcases hq1 : popFirst (fun r => r.2.codice_articolo == code) rows with ⟨o1, rest1⟩
    cases qty with
    | none =>
        simp only [hq1] at h ⊢
        cases o1 with
        | none => simp at h
        | some r =>
            have hra : r = a := by simpa using h
            obtain ⟨_, l₁, l₂, hs, hr⟩ :=
              popFirst_some (fun r => r.2.codice_articolo == code) rows r (by rw [hq1])
            rw [hra] at hs
            refine ⟨l₁, l₂, hs, ?_⟩
            rw [hq1] at hr
            simpa using hr
    | some q =>
        rcases hq2 : popFirst (fun r => qtyMatches r.2 code q) rows with ⟨o2, rest2⟩
        simp only [hq1, hq2] at h ⊢
        cases o2 with
        | some r =>
            have hra : r = a := by simpa using h
            obtain ⟨_, l₁, l₂, hs, hr⟩ :=
              popFirst_some (fun r => qtyMatches r.2 code q) rows r (by rw [hq2])
            rw [hra] at hs
            refine ⟨l₁, l₂, hs, ?_⟩
            rw [hq2] at hr
            simpa using hr
        | none =>
            cases o1 with
            | none => simp at h
            | some r =>
                have hra : r = a := by simpa using h
                obtain ⟨_, l₁, l₂, hs, hr⟩ :=
                  popFirst_some (fun r => r.2.codice_articolo == code) rows r (by rw [hq1])
                rw [hra] at hs
                refine ⟨l₁, l₂, hs, ?_⟩
                rw [hq1] at hr
                simpa using hr




theorem match_price_run_consumed_mem (qs : List (String × Option Rat)) :
    ∀ (rows : List (Nat × ProdRow)) (i : Nat),
      i ∈ (match_price_run qs rows).1.filterMap id → i ∈ rows.map Prod.fst := by
  induction qs with
  | nil => intro rows i h; simp [match_price_run] at h
  | cons q qs ih =>
      intro rows i h
      simp only [match_price_run] at h
      rcases hs : (match_price_id q.1 q.2 rows).1 with _ | a
      · simp only [hs, Option.map_none', List.filterMap_cons_none] at h
        have h2 := ih _ _ h
        rw [match_price_id_none q.1 q.2 rows hs] at h2
        exact h2
      · simp only [hs, Option.map_some', List.filterMap_cons_some, id_eq] at h
        obtain ⟨l₁, l₂, hsplit, hrest⟩ := match_price_id_some q.1 q.2 rows a hs
        rcases List.mem_cons.mp h with rfl | h
        · rw [hsplit]; simp
        · have h2 := ih _ _ h
          rw [hrest] at h2
          rw [hsplit]
          simp only [List.map_append, List.map_cons] at h2 ⊢
          rcases List.mem_append.mp h2 with h3 | h3
          · exact List.mem_append.mpr (Or.inl h3)
          · exact List.mem_append.mpr (Or.inr (List.mem_cons_of_mem _ h3))



theorem match_price_run_consumed_nodup (qs : List (String × Option Rat)) :
    ∀ (rows : List (Nat × ProdRow)), (rows.map Prod.fst).Nodup →
      ((match_price_run qs rows).1.filterMap id).Nodup := by
  induction qs with
  | nil => intro rows _; simp [match_price_run]
  | cons q qs ih =>
      intro rows hnd
      simp only [match_price_run]
      rcases hs : (match_price_id q.1 q.2 rows).1 with _ | a
      · have hrw := match_price_id_none q.1 q.2 rows hs
        simp only [hs, hrw, Option.map_none']
        simpa using ih rows hnd
      · obtain ⟨l₁, l₂, hsplit, hrest⟩ := match_price_id_some q.1 q.2 rows a hs
        simp only [hs, Option.map_some', List.filterMap_cons_some, id_eq]
        have hmid : ((l₁ ++ a :: l₂).map Prod.fst).Nodup := by rw [← hsplit]; exact hnd
        simp only [List.map_append, List.map_cons] at hmid
        rw [List.nodup_middle, List.nodup_cons] at hmid
        have hrestnd : ((match_price_id q.1 q.2 rows).2.map Prod.fst).Nodup := by
          rw [hrest]; simp only [List.map_append]; exact hmid.2
        refine List.nodup_cons.mpr ⟨?_, ih _ hrestnd⟩
        intro hmem
        have hmem2 := match_price_run_consumed_mem qs _ _ hmem
        rw [hrest] at hmem2
        simp only [List.map_append] at hmem2
        exact hmid.1 hmem2



theorem match_price_id_first_match (code : String) (q : Rat)
    (rows : List (Nat × ProdRow)) (hc : code ≠ "") :
    (match_price_id code (some q) rows).1 =
      Option.orElse (rows.find? (fun r => qtyMatches r.2 code q))
        (fun _ => rows.find? (fun r => r.2.codice_articolo == code)) := by
  unfold match_price_id
  rw [if_neg hc]
  rcases hq2 : popFirst (fun r => qtyMatches r.2 code q) rows with ⟨o2, rest2⟩
  have hf2 : rows.find? (fun r => qtyMatches r.2 code q) = o2 := by
    rw [← popFirst_fst, hq2]
  rcases hq1 : popFirst (fun r => r.2.codice_articolo == code) rows with ⟨o1, rest1⟩
  have hf1 : rows.find? (fun r => r.2.codice_articolo == code) = o1 := by
    rw [← popFirst_fst, hq1]
  rw [hf1, hf2]
  cases o2 with
  | some r => simp [hq1, hq2, Option.orElse]
  | none =>
      cases o1 with
      | some r => simp [hq1, hq2, Option.orElse]
      | none => simp [hq1, hq2, Option.orElse]

theorem popFirst_map_snd (p : ProdRow → Bool) (l : List (Nat × ProdRow)) :
    popFirst p (l.map Prod.snd) =
      (((popFirst (fun x => p x.2) l).1).map Prod.snd,
       (popFirst (fun x => p x.2) l).2.map Prod.snd) := by
  induction l with
  | nil => rfl
  | cons x xs ih =>
      cases hx : p x.2
      · simp only [List.map_cons, popFirst, hx, Bool.false_eq_true, if_false, ih]
      · simp only [List.map_cons, popFirst, hx, if_true, Option.map_some']

theorem match_price_eq_id (code : String) (qty : Option Rat)
    (rows : List (Nat × ProdRow)) :
    match_price code qty (rows.map Prod.snd) =
      (((match_price_id code qty rows).1).bind (fun r => r.2.prezzo),
       (match_price_id code qty rows).2.map Prod.snd) := by
  unfold match_price match_price_id
  by_cases hc : code = ""
  · simp [hc]
  · rw [if_neg hc, if_neg hc]
    rw [popFirst_map_snd (fun r => r.codice_articolo == code) rows]
    rcases hq1 : popFirst (fun x => x.2.codice_articolo == code) rows with ⟨o1, rest1⟩
    cases qty with
    | none =>
        dsimp only
        cases o1 with
        | some r => simp [hq1]
        | none => simp [hq1]
    | some q =>
        dsimp only
        rw [popFirst_map_snd (fun r => qtyMatches r code q) rows]
        rcases hq2 : popFirst (fun x => qtyMatches x.2 code q) rows with ⟨o2, rest2⟩
        cases o2 with
        | some r => simp [hq1, hq2]
        | none =>
            cases o1 with
            | some r => simp [hq1, hq2]
            | none => simp [hq1, hq2]

/-!
Concrete example documents used by the claims about the normalizer.
-/

/-- Segment with protobuf-named indices. -/
def mkSeg (a b : Nat) : TextSegment := ⟨some a, none, some b, none⟩

/-- Cell whose text is `full_text[a:b]`. -/
def mkCell (a b : Nat) : Cell := ⟨some ⟨some ⟨some [mkSeg a b], none⟩, none⟩⟩

/-- Full text of the example document: header labels then the body values
`A1`, `5`, `50`. -/
def exFull : String := "codice articoloquantita'prezzo totaleA1550"

/-- Header row of the example table: `codice articolo`, `quantita'`,
`prezzo totale` (no unit-price column). -/
def exHeaderRow : TableRow := ⟨some [mkCell 0 15, mkCell 15 24, mkCell 24 37]⟩

/-- Body row of the example table: code `A1`, quantity `5`, total `50`. -/
def exBodyRow : TableRow := ⟨some [mkCell 37 39, mkCell 39 40, mkCell 40 42]⟩

/-- The example table. -/
def exTable : Table := ⟨some [exHeaderRow], none, some [exBodyRow], none⟩

/-- The example page. -/
def exPage : Page := ⟨some [exTable]⟩

/-- `riga` entity of the example: code `A1`, quantity `5`. -/
def exEntity : Entity :=
  ⟨some "riga", none, none, none,
   some [⟨some "codice_articolo", none, some "A1", none⟩,
         ⟨some "quantita", none, some "5", none⟩]⟩

/-- Example document for the price-fallback claim: one table row
`(A1, 5, total 50)` with no unit-price column, and one `riga` entity for
code `A1` quantity `5`. -/
def exampleDoc : Document := ⟨some exFull, some [exEntity], some [exPage]⟩

/-- Document whose single `riga` entity has an unparseable quantity
(`boh`) and no tables at all. -/
def badQtyDoc : Document :=
  ⟨none,
   some [⟨some "riga", none, none, none,
          some [⟨some "codice_articolo", none, some "B2", none⟩,
                ⟨some "quantita", none, some "boh", none⟩]⟩],
   none⟩

/-- Length of the first component of a fold whose step adds one element
exactly on the entities selected by `pred`: the generic engine behind the
no-abort property of `rimappaStep3`. -/
theorem foldl_fst_length {σ : Type} (f : (List Riga × σ) → Entity → List Riga × σ)
    (pred : Entity → Bool)
    (hf : ∀ acc e, ((f acc e).1).length = acc.1.length + (if pred e then 1 else 0)) :
    ∀ (ents : List Entity) (acc : List Riga × σ),
      ((ents.foldl f acc).1).length = acc.1.length + (ents.filter pred).length := by
  intro ents
  induction ents with
  | nil => intro acc; simp
  | cons e es ih =>
      intro acc
      simp only [List.foldl_cons, List.filter_cons]
      rw [ih (f acc e), hf acc e]
      cases hp : pred e
      · simp [hp]
      · simp only [hp, if_true, List.length_cons]
        omega

/-!
Claim theorems.
-/

/-- C10: the number parser first deletes every period and then replaces
every comma with a period before converting to a float, so the
period-as-decimal-separator input `"1.5"` yields `15.0` (not `1.5`),
Italian-convention inputs parse as expected, and `None`, empty and
non-numeric inputs yield no value rather than raising. -/
theorem parse_number_deletes_periods_then_commas :
    _parse_number (some "1.5") = some 15
  ∧ _parse_number (some "1.234,5") = some (12345 / 10)
  ∧ _parse_number (some "1,5") = some (3 / 2)
  ∧ _parse_number none = none
  ∧ _parse_number (some "") = none
  ∧ _parse_number (some "abc") = none
  ∧ _parse_number (some "N/A") = none := by
  refine ⟨by decide, by decide, by decide, rfl, by decide, by decide, by decide⟩

/-- C1: contrary to the claim, a `RecId` absent from the `Requests` table
does not produce HTTP 404: the handler raises `HTTPException(404, "RecId
non trovato")` inside its own `try` block and the blanket
`except Exception` rewraps it as HTTP 500, so the client receives a 500
whose detail is the stringified inner exception; an existing `RecId`
does return the description resolved via the `Status` left join. -/
theorem get_status_missing_recid_yields_500 :
    get_status ⟨[], [(1, "In elaborazione")], 1⟩ 999999999 =
      .httpError 500 "404: RecId non trovato"
  ∧ get_status ⟨[⟨7, "doc.pdf", 0, none, 1, none⟩], [(1, "In elaborazione")], 8⟩ 7 =
      .ok (7, "In elaborazione")
  ∧ get_status ⟨[⟨7, "doc.pdf", 0, none, 3, none⟩], [(1, "In elaborazione")], 8⟩ 7 =
      .ok (7, "Non Trovato") := by
  refine ⟨by decide, by decide, by decide⟩

/-- C4 counterexample: `record_data` called with a file path and no
explicit original filename persists the empty string as `Filename`, not
the basename of the path. -/
theorem record_data_default_filename_empty :
    ((DbData.record_data (fun _ => [37]) (some "cartella/doc.pdf") none (some "p")
        ⟨[], [(1, "In coda")], 1⟩).1.requests.map (fun r => r.filename)) = [""]
  ∧ basename "cartella/doc.pdf" = "doc.pdf"
  ∧ ("" : String) ≠ "doc.pdf" := by
  refine ⟨by decide, by decide, by decide⟩

/-- C4 amended: only the legacy create-request shape (`data`) defaults
the persisted `Filename` to the basename of the file path; the canonical
`record_data` shape defaults it to the empty string when no original
filename is supplied. -/
theorem create_request_filename_defaults :
    (∀ (fs : String → List Nat) (p : String) (db : DB),
        ((DbData.data fs p none db).1.requests.map (fun r => r.filename)) =
          (db.requests.map (fun r => r.filename)) ++ [basename p])
  ∧ (∀ (fs : String → List Nat) (p : Option String) (prompt : Option String) (db : DB),
        ((DbData.record_data fs p none prompt db).1.requests.map (fun r => r.filename)) =
          (db.requests.map (fun r => r.filename)) ++ [""]) := by
  constructor
  · intro fs p db
    simp [DbData.data, pyOr]
  · intro fs p prompt db
    simp [DbData.record_data, pyOr]

/-- C2 counterexample: the Upload Document handler has an exit path that
leaves its temporary staging file on disk: on a successful upload the
`finally` block is `pass` and no background cleanup task is scheduled, so
the handler exits with the file still present. -/
theorem upload_pdf_success_leaves_temp_file :
    (upload_pdf "doc.pdf" (.ok (1, "In elaborazione"))).2 = true := by
  decide

/-- C2 amended: only the Run Pipeline background task removes its
temporary file on every exit path (unconditional `finally` cleanup);
Upload Document leaves its staging file on disk on every path past
staging (deletion is delegated to a background task that is never
scheduled), and Extract Synchronously removes it on the success path
only, leaving it behind on every error path. -/
theorem temp_file_cleanup_per_operation :
    (∀ (tmp : Option String) (run : String → Except String Unit),
        (process_pipeline_background tmp run).2 = false)
  ∧ (∀ (filename : String) (record : Except String (Nat × String)),
        hasAllowedExt filename = true → (upload_pdf filename record).2 = true)
  ∧ (∀ (α : Type) (v : α), (extract_data (Except.ok v)).2 = false)
  ∧ (∀ (α : Type) (e : PyError), (extract_data (α := α) (Except.error e)).2 = true) := by
  refine ⟨?_, ?_, ?_, ?_⟩
  · intro tmp run
    cases tmp with
    | none => rfl
    | some p =>
        simp only [process_pipeline_background]
        cases run p <;> rfl
  · intro filename record h
    cases record with
    | ok v => simp [upload_pdf, h]
    | error e => simp [upload_pdf, h]
  · intro α v; rfl
  · intro α e; cases e <;> rfl

/-- C2 witness: applying the amended cleanup theorem at a concrete
allowed filename. -/
theorem temp_file_cleanup_per_operation_witness :
    hasAllowedExt "doc.pdf" = true
  ∧ (upload_pdf "doc.pdf" (.error "db irraggiungibile")).2 = true :=
  ⟨by decide,
   temp_file_cleanup_per_operation.2.1 "doc.pdf" (.error "db irraggiungibile") (by decide)⟩

/-- C3 counterexample: when all three parse attempts fail, the error
raised by the LLM extraction agent is the fixed string `"Parsing JSON
fallito anche dopo i tentativi di riparazione."`, which does not include
the raw model reply (here `"solo prosa senza JSON"`); the raw reply is
only written to the log. -/
theorem json_parse_failure_omits_raw_reply :
    extract_data_from_text (α := Unit) (fun _ => .ok "solo prosa senza JSON")
      (fun _ => none) (fun _ => none) (fun _ => none) "testo ocr" "openai"
      = .error jsonParseFailureMsg
  ∧ strContains jsonParseFailureMsg "solo prosa senza JSON" = false := by
  refine ⟨rfl, by decide⟩

/-- C3 amended: for every OCR text whose model reply fails all three
ordered parse attempts (strict parse, permissive repair parse, explicit
repair-then-parse), the LLM extraction agent fails with an error whose
message is the fixed string `"Parsing JSON fallito anche dopo i tentativi
di riparazione."` — a message that does not carry the raw model reply. -/
theorem json_parse_failure_fixed_message :
    ∀ (α : Type) (runChain : String → Except String String)
      (jsonLoads jrLoads jrRepair : String → Option α) (text provider response : String),
      (provider = "openai" ∨ provider = "openrouter") →
      runChain text = .ok response →
      jsonLoads response = none →
      jrLoads response = none →
      jrRepair response = none →
      extract_data_from_text runChain jsonLoads jrLoads jrRepair text provider =
        .error jsonParseFailureMsg := by
  intro α runChain jsonLoads jrLoads jrRepair text provider response hprov hrun hj1 hj2 hj3
  unfold extract_data_from_text
  rw [if_pos hprov]
  simp only [hrun, hj1, hj2, hj3]

/-- C3 witness: the amended theorem applied at a concrete failing reply. -/
theorem json_parse_failure_fixed_message_witness :
    extract_data_from_text (α := Unit) (fun _ => .ok "niente JSON qui")
      (fun _ => none) (fun _ => none) (fun _ => none) "testo" "openrouter"
      = .error jsonParseFailureMsg :=
  json_parse_failure_fixed_message Unit (fun _ => .ok "niente JSON qui")
    (fun _ => none) (fun _ => none) (fun _ => none) "testo" "openrouter"
    "niente JSON qui" (Or.inr rfl) rfl rfl rfl rfl

/-- The orchestrator failure message contains the contractual phrase. -/
theorem containsPhrase_procMsg (e : String) : ContainsPhrase (procMsg e) := by
  refine ⟨[], (": " ++ e).data, ?_⟩
  simp [procMsg, ContainsPhrase, List.append_assoc]

/-- C5: any failure of either stage of the file extraction orchestrator
is re-raised as a single failure whose message wraps the original error
and contains the literal phrase `"Errore durante l'elaborazione del file
data"`; when the OCR stage fails, the LLM extraction agent is never
invoked.  The last conjunct ties the instrumented orchestrator back to
the plain embedding. -/
theorem orchestrator_failure_contract :
    ∀ (α : Type) (ocr : String → Except String String) (llm : String → Except String α)
      (path model provider : String),
      (∀ e, ocr path = .error e →
        extract_data_from_file ocr llm path model provider = .error (procMsg e) ∧
        ContainsPhrase (procMsg e) ∧
        (extract_data_from_file_calls ocr llm path model provider).2 = false)
    ∧ (∀ text e, ocr path = .ok text → llm text = .error e →
        extract_data_from_file ocr llm path model provider = .error (procMsg e) ∧
        ContainsPhrase (procMsg e))
    ∧ (extract_data_from_file_calls ocr llm path model provider).1 =
        extract_data_from_file ocr llm path model provider := by
  intro α ocr llm path model provider
  refine ⟨?_, ?_, ?_⟩
  · intro e he
    refine ⟨?_, containsPhrase_procMsg e, ?_⟩
    · unfold extract_data_from_file
      simp only [he]
    · unfold extract_data_from_file_calls
      simp only [he]
  · intro text e htext he
    refine ⟨?_, containsPhrase_procMsg e⟩
    unfold extract_data_from_file
    simp only [htext, he]
  · unfold extract_data_from_file extract_data_from_file_calls
    rcases hocr : ocr path with e | text
    · simp [hocr]
    · rcases hllm : llm text with e | d <;> simp [hocr, hllm]

/-- C5 witness: the contract applied to a concrete OCR failure. -/
theorem orchestrator_failure_contract_witness :
    extract_data_from_file (fun _ => .error "poppler mancante")
      (fun _ => (.ok () : Except String Unit)) "f.pdf" "gpt-3.5-turbo" "openai"
      = .error (procMsg "poppler mancante")
  ∧ (extract_data_from_file_calls (fun _ => .error "poppler mancante")
      (fun _ => (.ok () : Except String Unit)) "f.pdf" "gpt-3.5-turbo" "openai").2 = false :=
  ⟨((orchestrator_failure_contract Unit (fun _ => .error "poppler mancante")
      (fun _ => .ok ()) "f.pdf" "gpt-3.5-turbo" "openai").1 "poppler mancante" rfl).1,
   ((orchestrator_failure_contract Unit (fun _ => .error "poppler mancante")
      (fun _ => .ok ()) "f.pdf" "gpt-3.5-turbo" "openai").1 "poppler mancante" rfl).2.2⟩

/-- The instrumented article lookup queries exactly the codes it is
given, in order: its call log is the input list itself. -/
theorem articoli_calls_log (erp : String → Except String (List (Option String)))
    (codici : List String) : (articoli_esistenti_calls erp codici).2 = codici := by
  induction codici with
  | nil => rfl
  | cons code rest ih =>
      simp only [articoli_esistenti_calls]
      cases partFound erp code <;> simp [ih]

/-- The found codes are the input codes filtered by a successful lookup. -/
theorem articoli_trovati_filter (erp : String → Except String (List (Option String)))
    (codici : List String) :
    (articoli_esistenti_calls erp codici).1 = codici.filter (partFound erp) := by
  induction codici with
  | nil => rfl
  | cons code rest ih =>
      simp only [articoli_esistenti_calls, List.filter_cons]
      cases h : partFound erp code <;> simp [h, ih]

/-- C9: in Verify Document the line items' article codes are
deduplicated before lookup, so every requested code is queried exactly
once against the ERP article endpoint; every requested code appears in at
most one of `articoli_trovati` and `articoli_mancanti`, and
`articoli_mancanti` is exactly the set of requested codes minus the found
codes. -/
theorem verifica_documento_dedup_partition :
    ∀ (erpC erpP : String → Except String (List (Option String))) (data : DocumentoData),
      (∀ c, c ∈ data.righe.map (fun r => r.codice_articolo) →
          ((articoli_esistenti_calls erpP (dedupCodes data.righe)).2).count c = 1)
    ∧ (∀ c, ¬(c ∈ (verifica_documento erpC erpP data).articoli_trovati ∧
              c ∈ (verifica_documento erpC erpP data).articoli_mancanti))
    ∧ (∀ c, c ∈ (verifica_documento erpC erpP data).articoli_mancanti ↔
          (c ∈ data.righe.map (fun r => r.codice_articolo) ∧
           c ∉ (verifica_documento erpC erpP data).articoli_trovati)) := by
  intro erpC erpP data
  refine ⟨?_, ?_, ?_⟩
  · intro c hc
    rw [articoli_calls_log]
    exact List.count_eq_one_of_mem (List.nodup_dedup _) (List.mem_dedup.mpr hc)
  · intro c ⟨ht, hm⟩
    simp only [verifica_documento, articoli_esistenti] at ht hm
    rw [List.mem_filter] at hm
    simp at hm
    exact hm.2 ht
  · intro c
    simp only [verifica_documento, articoli_esistenti]
    rw [List.mem_filter]
    simp [dedupCodes, List.mem_dedup]

/-- Verification input with two line items sharing the article code
`X7`. -/
def c9Data : DocumentoData :=
  ⟨"ACME", "123", "2024-01-01", none,
   [⟨"1", "X7", "bulloni", 1, 0⟩, ⟨"2", "X7", "bulloni", 2, 0⟩]⟩

/-- ERP oracle that finds every article code. -/
def c9Erp : String → Except String (List (Option String)) := fun c => .ok [some c]

/-- C9 witness: the shared code of the two line items is queried exactly
once. -/
theorem verifica_documento_dedup_partition_witness :
    ("X7" ∈ c9Data.righe.map (fun r => r.codice_articolo))
  ∧ ((articoli_esistenti_calls c9Erp (dedupCodes c9Data.righe)).2).count "X7" = 1 :=
  ⟨by decide,
   (verifica_documento_dedup_partition c9Erp c9Erp c9Data).1 "X7" (by decide)⟩

/-- C7: in the price-matching step, every table-derived candidate row is
consumed at most once — across any sequence of `(code, qty)` queries the
identities of the consumed rows are pairwise distinct, so two `riga`
entities are never assigned the price of the same table row; matching
picks the first matching row of the still-unconsumed list (quantity-exact
matches first, then code-only matches); and the tagged instrumentation
agrees with the embedding of the source closure `match_price`. -/
theorem match_price_consumes_each_row_once :
    ∀ (queries : List (String × Option Rat)) (rows : List (Nat × ProdRow)),
      ((rows.map Prod.fst).Nodup →
        ((match_price_run queries rows).1.filterMap id).Nodup)
    ∧ (∀ (code : String) (q : Rat), code ≠ "" →
        (match_price_id code (some q) rows).1 =
          Option.orElse (rows.find? (fun r => qtyMatches r.2 code q))
            (fun _ => rows.find? (fun r => r.2.codice_articolo == code)))
    ∧ (∀ (code : String) (qty : Option Rat),
        match_price code qty (rows.map Prod.snd) =
          (((match_price_id code qty rows).1).bind (fun r => r.2.prezzo),
           (match_price_id code qty rows).2.map Prod.snd)) := by
  intro queries rows
  exact ⟨match_price_run_consumed_nodup queries rows,
         fun code q hc => match_price_id_first_match code q rows hc,
         fun code qty => match_price_eq_id code qty rows⟩

/-- Two tagged candidate rows for the same code and quantity. -/
def c7Rows : List (Nat × ProdRow) :=
  [(0, ⟨"A1", 5, some 10⟩), (1, ⟨"A1", 5, some 12⟩)]

/-- C7 witness: the consumption invariant applied to a concrete run of
two identical queries against two equal-code rows. -/
theorem match_price_consumes_each_row_once_witness :
    ((c7Rows.map Prod.fst).Nodup)
  ∧ ((match_price_run [("A1", some 5), ("A1", some 5)] c7Rows).1.filterMap id).Nodup
  ∧ (match_price_id "A1" (some 5) c7Rows).1 =
      Option.orElse (c7Rows.find? (fun r => qtyMatches r.2 "A1" 5))
        (fun _ => c7Rows.find? (fun r => r.2.codice_articolo == "A1")) :=
  ⟨by decide,
   (match_price_consumes_each_row_once [("A1", some 5), ("A1", some 5)] c7Rows).1 (by decide),
   (match_price_consumes_each_row_once [] c7Rows).2.1 "A1" 5 (by decide)⟩

/-- The third pass emits exactly one output line per `riga`-typed
entity, whatever the working list and the price map hold. -/
theorem rimappaStep3_length (ents : List Entity) (prod_rows : List ProdRow)
    (price_map : List (String × Rat)) :
    (rimappaStep3 ents prod_rows price_map).length =
      (ents.filter (fun e => pyLower (_get_entity_type e) == "riga")).length := by
  unfold rimappaStep3
  rw [foldl_fst_length _ (fun e => pyLower (_get_entity_type e) == "riga") ?hf ents
    (([] : List Riga), prod_rows)]
  · simp
  case hf =>
    intro acc e
    by_cases hr : pyLower (_get_entity_type e) = "riga"
    · simp [hr]
    · simp [hr]

/-- C8: the Document-AI result normalizer is total — for every input
document it returns a complete result with exactly one output line per
`riga`-typed entity (no input aborts the document); an unparseable
number yields no value (`none`) rather than raising, and a document whose
`riga` entity carries an unparseable quantity still yields its line item,
with quantity defaulted to `0.0`. -/
theorem rimappa_json_total_no_abort :
    (∀ d : Document, (rimappa_json d).riga.length =
        ((_get_entities d).filter (fun e => pyLower (_get_entity_type e) == "riga")).length)
  ∧ _parse_number (some "N/A") = none
  ∧ (rimappa_json badQtyDoc).riga.map (fun r => (r.codice_articolo, r.quantita)) = [("B2", 0)] := by
  refine ⟨?_, by decide, by decide⟩
  intro d
  exact rimappaStep3_length _ _ _

/-- C6: in the table pass of the normalizer, a qualifying body row with
no `prezzo unitario` column, a `prezzo totale` column and a non-zero
parsed quantity gets its unit price derived as total divided by
quantity; in particular the example document with one table row
`(A1, quantity 5, total 50)` and a matching `riga` entity yields unit
price `10.0` for code `A1`. -/
theorem price_fallback_total_over_quantity :
    (∀ (full : String) (ic iq it : Nat) (br : TableRow) (q pt : Rat),
      ic < (_get_cells br).length → iq < (_get_cells br).length → it < (_get_cells br).length →
      _cell_text ((_get_cells br).getD ic ⟨none⟩) full ≠ "" →
      _parse_number (some (_cell_text ((_get_cells br).getD iq ⟨none⟩) full)) = some q →
      q ≠ 0 →
      _parse_number (some (_cell_text ((_get_cells br).getD it ⟨none⟩) full)) = some pt →
      prodOfBodyRow full ic iq none (some it) br =
        some ⟨_cell_text ((_get_cells br).getD ic ⟨none⟩) full, q, some (pt / q)⟩)
  ∧ (rimappa_json exampleDoc).riga.map (fun r => (r.codice_articolo, r.prezzo)) = [("A1", 10)] := by
  constructor
  · intro full ic iq it br q pt hic hiq hit hcode hq hq0 hpt
    simp only [prodOfBodyRow]
    rw [if_neg (by omega : ¬(ic ≥ (_get_cells br).length ∨ iq ≥ (_get_cells br).length))]
    simp only [hq]
    rw [if_neg hcode]
    simp only [if_pos hit, hpt]
    rw [if_pos hq0]
  · decide

/-- C6 witness: the fallback rule applied to the example body row
`(A1, 5, 50)`. -/
theorem price_fallback_total_over_quantity_witness :
    (0 < (_get_cells exBodyRow).length ∧ 1 < (_get_cells exBodyRow).length ∧
     2 < (_get_cells exBodyRow).length)
  ∧ prodOfBodyRow exFull 0 1 none (some 2) exBodyRow =
      some ⟨_cell_text ((_get_cells exBodyRow).getD 0 ⟨none⟩) exFull, 5, some ((50 : Rat) / 5)⟩ :=
  ⟨⟨by decide, by decide, by decide⟩,
   price_fallback_total_over_quantity.1 exFull 0 1 2 exBodyRow 5 50
     (by decide) (by decide) (by decide) (by decide) (by decide) (by decide) (by decide)⟩

end AgentAI
